import Mathlib

/-!
Verification of the vt102 terminal emulator library (screens.py, streams.py,
graphics.py, modes.py, control.py, escape.py).

The Python code is shallowly embedded: the `Screen` class becomes a `Screen`
structure with one Lean function per method, threading the state explicitly;
fallible code (Python statements that may raise) runs in `Except PyErr`.
Python `int` values are modelled as `Int`; Python lists / `array("u")` rows as
Lean lists; Python `set` as `Finset`.  Where Python converts a set back to a
tuple (`tuple(some_set)`), the element order is unspecified in Python; we
canonicalise to the sorted order — no theorem below observes the order of a
flag tuple with more than one element.
-/

/-- Exception classes that the embedded code can raise.  `valueError` also
stands for `UnicodeEncodeError`, which is a subclass of `ValueError` in
Python 2. -/
inductive PyErr where
  | indexError
  | valueError
  | typeError
  | keyError
deriving DecidableEq, Repr

instance {ε α : Type} [DecidableEq ε] [DecidableEq α] : DecidableEq (Except ε α) :=
  fun a b =>
    match a, b with
    | .ok x, .ok y =>
      if h : x = y then .isTrue (by rw [h]) else .isFalse (by simp [h])
    | .error x, .error y =>
      if h : x = y then .isTrue (by rw [h]) else .isFalse (by simp [h])
    | .ok _, .error _ => .isFalse (by simp)
    | .error _, .ok _ => .isFalse (by simp)

/-- Python sequence indexing: a non-negative index must be `< len`, a negative
index counts from the end (`a[-k]` is `a[len-k]`); anything else is an
`IndexError`. -/
def pyIdx (len : Nat) (i : Int) : Option Nat :=
  if 0 ≤ i then (if i < (len : Int) then some i.toNat else none)
  else (if 0 ≤ i + (len : Int) then some (i + (len : Int)).toNat else none)

/-- Python `l[i]` (read). -/
def pyGet {α : Type} (l : List α) (i : Int) : Except PyErr α :=
  match pyIdx l.length i with
  | some n =>
    match l.get? n with
    | some a => .ok a
    | none => .error .indexError
  | none => .error .indexError

/-- Python `l[i] = v`. -/
def pySet {α : Type} (l : List α) (i : Int) (v : α) : Except PyErr (List α) :=
  match pyIdx l.length i with
  | some n => .ok (l.set n v)
  | none => .error .indexError

/-- Python `l.pop(i)`: returns the removed element and the remaining list. -/
def pyPop {α : Type} (l : List α) (i : Int) : Except PyErr (α × List α) :=
  match pyIdx l.length i with
  | some n =>
    match l.get? n with
    | some a => .ok (a, l.eraseIdx n)
    | none => .error .indexError
  | none => .error .indexError

/-- Python `l.pop()` (no argument): removes the last element. -/
def popLast {α : Type} (l : List α) : Except PyErr (List α) :=
  if l.isEmpty then .error .indexError else .ok l.dropLast

/-- Python `l.insert(i, v)`: the insertion point is clamped into `[0, len]`,
negative indices count from the end first.  Never fails. -/
def pyInsert {α : Type} (l : List α) (i : Int) (v : α) : List α :=
  let j : Int := if i < 0 then i + l.length else i
  let k : Nat := if j < 0 then 0 else min j.toNat l.length
  l.take k ++ v :: l.drop k

/-- Python slice `l[:i]` (clamping semantics, negative index from the end). -/
def pyTake {α : Type} (l : List α) (i : Int) : List α :=
  if 0 ≤ i then l.take i.toNat else l.take ((i + l.length).toNat)

/-- Python slice `l[i:]` (clamping semantics, negative index from the end). -/
def pyDrop {α : Type} (l : List α) (i : Int) : List α :=
  if 0 ≤ i then l.drop i.toNat else l.drop ((i + l.length).toNat)

/-- Python `xrange(a, b)` over integers. -/
def intRange (a b : Int) : List Int :=
  (List.range (b - a).toNat).map (fun n => a + n)

/-- Python `count or 1`: both `None` and `0` fall back to `1`
(screens.py uses this idiom for defaulted numeric parameters). -/
def countVal : Option Int → Int
  | none => 1
  | some v => if v = 0 then 1 else v

/-- A row of `n` blank characters, Python `array("u", u" " * n)`
(a negative `n` yields the empty row, as in Python). -/
def blankRow (n : Int) : List Char := List.replicate n.toNat ' '

-- ## graphics.py

/-- graphics.TEXT: the ANSI text style code table. -/
def TEXT : List (Int × String) :=
  [(0, "reset"), (1, "bold"), (2, "dim"), (4, "underline"), (5, "blink"),
   (7, "reverse"), (24, "underline-off"), (25, "blink-off"), (27, "reverse-off")]

/-- graphics.COLORS["foreground"]. -/
def fgColors : List (Int × String) :=
  [(30, "black"), (31, "red"), (32, "green"), (33, "brown"), (34, "blue"),
   (35, "magenta"), (36, "cyan"), (37, "white"), (39, "default"), (38, "default")]

/-- graphics.COLORS["background"]. -/
def bgColors : List (Int × String) :=
  [(40, "black"), (41, "red"), (42, "green"), (43, "brown"), (44, "blue"),
   (45, "magenta"), (46, "cyan"), (47, "white"), (49, "default")]

-- ## Character attributes (screens.Attributes and raw tuples)

/-- One element of a Python attribute tuple: either a string, or a nested
tuple of style-flag strings (modelled as the set of flags; see the note on
`tuple(set(...))` order in the header). -/
inductive AttrVal where
  | str (s : String)
  | flags (fs : Finset String)
deriving DecidableEq

/-- A Python attribute tuple.  A well-formed `Attributes` namedtuple is
`[.flags fs, .str fg, .str bg]`, but `Screen.remove_text_attr` can produce
flattened tuples of other shapes, so the model keeps the general list. -/
def Attrs : Type := List AttrVal

instance : DecidableEq Attrs := by unfold Attrs; infer_instance

/-- screens.Screen.default_attributes = Attributes((), "default", "default"). -/
def default_attributes : Attrs :=
  [.flags ∅, .str "default", .str "default"]

/-- Python `set(x)` where `x` is an attribute-tuple element: a nested tuple of
flags yields the set of flags, a plain string yields its set of characters
(Python iterates a string into 1-character strings). -/
def setOfAttr : AttrVal → Finset String
  | .flags fs => fs
  | .str s => (s.toList.map (fun c => String.mk [c])).toFinset

/-- Python `tuple(some_set)` for a set of strings, canonicalised to sorted
order (the Python order is unspecified; no theorem observes multi-element
order). -/
def sortFlags (fs : Finset String) : List String :=
  fs.sort (· ≤ ·)

/-- screens.Screen.remove_text_attr.  Note the faithful flattening bug of the
source: `tuple(current) + self.cursor_attributes[1:]` concatenates the flag
strings directly with the colour strings instead of nesting them. -/
def remove_text_attr (attr : String) (cur : Attrs) : Except PyErr Attrs := do
  let a0 ← pyGet cur 0
  let current := (setOfAttr a0).erase attr
  pure ((sortFlags current).map AttrVal.str ++ cur.drop 1)

/-- screens.Screen.add_text_attr: `(tuple(current), attrs[0], attrs[1])`. -/
def add_text_attr (attr : String) (cur : Attrs) : Except PyErr Attrs := do
  let a0 ← pyGet cur 0
  let current := insert attr (setOfAttr a0)
  let rest : Attrs := cur.drop 1
  let r0 ← pyGet rest 0
  let r1 ← pyGet rest 1
  pure [.flags current, r0, r1]

-- ## screens.py: the Screen state

/-- screens.Savepoint: `namedtuple("Savepoint", "cursor origin wrap")`. -/
structure Savepoint where
  cursor : Int × Int
  origin : Bool
  wrap : Bool
deriving DecidableEq

/-- The state of screens.Screen.  `margins` is the `(top, bottom)` pair;
`mode` is the set of mode numbers from modes.py (`LNM = 20`, `IRM = 4`,
`DECTCEM = 25`, `DECCKM = 1`, `DECOM = 6`, `DECAWM = 7`, `DECCOLM = 3`). -/
structure Screen where
  lines : Int
  columns : Int
  display : List (List Char)
  attributes : List (List Attrs)
  buffer : List String
  mode : Finset Int
  margins : Int × Int
  cursor_attributes : Attrs
  x : Int
  y : Int
  tabstops : Finset Int
  savepoints : List Savepoint
deriving DecidableEq

/-- Default tab stops: `set(xrange(7, columns, 8))`. -/
def defaultTabstops (columns : Int) : Finset Int :=
  ((List.range (((columns - 7).toNat + 7) / 8)).map (fun n => 7 + 8 * (n : Int))).toFinset

-- ## screens.py: cursor helpers

/-- screens.Screen.ensure_bounds. -/
def ensure_bounds (use_margins : Bool) (s : Screen) : Screen :=
  let tb := if use_margins ∨ (6 : Int) ∈ s.mode then s.margins else (0, s.lines - 1)
  { s with x := min (max 0 s.x) (s.columns - 1),
           y := min (max tb.1 s.y) tb.2 }

/-- screens.Screen.carriage_return. -/
def carriage_return (s : Screen) : Screen := { s with x := 0 }

/-- screens.Screen.cursor_up. -/
def cursor_up (count : Option Int) (s : Screen) : Screen :=
  ensure_bounds true { s with y := s.y - countVal count }

/-- screens.Screen.cursor_down. -/
def cursor_down (count : Option Int) (s : Screen) : Screen :=
  ensure_bounds true { s with y := s.y + countVal count }

/-- screens.Screen.cursor_up1. -/
def cursor_up1 (count : Option Int) (s : Screen) : Screen :=
  carriage_return (cursor_up count s)

/-- screens.Screen.cursor_down1. -/
def cursor_down1 (count : Option Int) (s : Screen) : Screen :=
  carriage_return (cursor_down count s)

/-- screens.Screen.cursor_back. -/
def cursor_back (count : Option Int) (s : Screen) : Screen :=
  ensure_bounds false { s with x := s.x - countVal count }

/-- screens.Screen.cursor_forward. -/
def cursor_forward (count : Option Int) (s : Screen) : Screen :=
  ensure_bounds false { s with x := s.x + countVal count }

/-- screens.Screen.backspace. -/
def backspace (s : Screen) : Screen := cursor_back none s

/-- screens.Screen.cursor_position. -/
def cursor_position (line column : Option Int) (s : Screen) : Screen :=
  let c := countVal column - 1
  let l := countVal line - 1
  if (6 : Int) ∈ s.mode then
    let l := l + s.margins.1
    if s.margins.1 ≤ l ∧ l ≤ s.margins.2 then
      ensure_bounds false { s with x := c, y := l }
    else s
  else
    ensure_bounds false { s with x := c, y := l }

/-- screens.Screen.cursor_to_column. -/
def cursor_to_column (column : Option Int) (s : Screen) : Screen :=
  ensure_bounds false { s with x := countVal column - 1 }

/-- screens.Screen.cursor_to_line. -/
def cursor_to_line (line : Option Int) (s : Screen) : Screen :=
  let y := countVal line - 1
  let y := if (6 : Int) ∈ s.mode then y + s.margins.1 else y
  ensure_bounds false { s with y := y }

/-- screens.Screen.tab: jump to the least tab stop after the cursor, else the
last column (the source iterates `sorted(self.tabstops)`). -/
def tab (s : Screen) : Screen :=
  let column := ((s.tabstops.sort (· ≤ ·)).find? (fun st => s.x < st)).getD (s.columns - 1)
  { s with x := column }

/-- screens.Screen.set_tab_stop. -/
def set_tab_stop (s : Screen) : Screen :=
  { s with tabstops := insert s.x s.tabstops }

/-- screens.Screen.clear_tab_stop (`if not type_of` treats `None` and `0`
alike). -/
def clear_tab_stop (t : Option Int) (s : Screen) : Screen :=
  let tv := t.getD 0
  if tv = 0 then { s with tabstops := s.tabstops.erase s.x }
  else if tv = 3 then { s with tabstops := ∅ }
  else s

/-- screens.Screen.set_margins. -/
def set_margins (top bottom : Option Int) (s : Screen) : Screen :=
  match top, bottom with
  | some t, some b =>
    let t' := max 0 (min (t - 1) (s.lines - 1))
    let b' := max 0 (min (b - 1) (s.lines - 1))
    if 1 ≤ b' - t' then
      cursor_position none none { s with margins := (t', b') }
    else s
  | _, _ => s

/-- screens.Screen.save_cursor: pushes `Savepoint(self.cursor, DECOM in mode,
DECAWM in mode)` (the SGR style is not saved). -/
def save_cursor (s : Screen) : Screen :=
  let sp : Savepoint := ⟨(s.x, s.y), decide ((6 : Int) ∈ s.mode), decide ((7 : Int) ∈ s.mode)⟩
  { s with savepoints := s.savepoints.concat sp }

/-- screens.Screen.bell: a stub. -/
def bell (s : Screen) : Screen := s

/-- screens.Screen.answer: appends the primary DA reply only when called with
exactly one argument. -/
def answer (args : List Int) (s : Screen) : Screen :=
  if args.length = 1 then { s with buffer := s.buffer.concat "\u009B?62;1;6c" }
  else s

-- ## screens.py: resize and reset

/-- screens.Screen.resize.  `lines or self.lines` treats both `None` and `0`
as "keep the current value". -/
def resize (lines? cols? : Option Int) (s : Screen) : Screen :=
  let lines := match lines? with
    | none => s.lines
    | some v => if v = 0 then s.lines else v
  let cols := match cols? with
    | none => s.columns
    | some v => if v = 0 then s.columns else v
  let s :=
    if s.lines < lines then
      { s with display := s.display ++
                 List.replicate (lines - s.lines).toNat (blankRow s.columns),
               attributes := s.attributes ++
                 List.replicate (lines - s.lines).toNat
                   (List.replicate s.columns.toNat default_attributes) }
    else if lines < s.lines then
      { s with display := pyDrop s.display (s.lines - lines),
               attributes := pyDrop s.attributes (s.lines - lines) }
    else s
  let s :=
    if s.columns < cols then
      { s with display := s.display.map
                 (fun l => l ++ List.replicate (cols - s.columns).toNat ' '),
               attributes := s.attributes.map
                 (fun l => l ++ List.replicate (cols - s.columns).toNat default_attributes) }
    else if cols < s.columns then
      { s with display := s.display.map (fun l => pyTake l (cols - s.columns)),
               attributes := s.attributes.map (fun l => pyTake l (cols - s.columns)) }
    else s
  { s with lines := lines, columns := cols }

/-- screens.Screen.reset.  Note that it does not touch `tabstops` or
`savepoints`; `margins` is computed from the old `self.lines` before the
dimensions are zeroed. -/
def reset (s : Screen) : Screen :=
  let L := s.lines
  let C := s.columns
  let s := { s with display := ([] : List (List Char)),
                    attributes := ([] : List (List Attrs)),
                    buffer := ([] : List String),
                    mode := ({7, 25, 20} : Finset Int),
                    margins := ((0 : Int), s.lines - 1),
                    cursor_attributes := default_attributes,
                    lines := (0 : Int), columns := (0 : Int),
                    x := (0 : Int), y := (0 : Int) }
  cursor_position none none (resize (some L) (some C) s)

/-- screens.Screen.__init__: sets `tabstops`, `savepoints`, `lines`, `columns`
and then calls `reset`; every other field is created inside `reset`, so the
placeholder values below are immediately overwritten. -/
def Screen.init (columns lines : Int) : Screen :=
  reset { lines := lines, columns := columns, display := [], attributes := [],
          buffer := [], mode := ∅, margins := (0, 0),
          cursor_attributes := default_attributes, x := 0, y := 0,
          tabstops := defaultTabstops columns, savepoints := [] }

-- ## screens.py: grid-editing operations (fallible, in `Except PyErr`)

/-- Runs `f` on the display and attribute matrices and stores the results;
the common shape of every row-editing method of screens.Screen. -/
def withRows (f : List (List Char) → List (List Attrs) →
    Except PyErr (List (List Char) × List (List Attrs))) (s : Screen) :
    Except PyErr Screen := do
  let (d, a) ← f s.display s.attributes
  pure { s with display := d, attributes := a }

/-- Runs `f` on the cursor style and stores the result; the common shape of
the SGR helpers of screens.Screen. -/
def withStyle (f : Attrs → Except PyErr Attrs) (s : Screen) :
    Except PyErr Screen := do
  let ca ← f s.cursor_attributes
  pure { s with cursor_attributes := ca }

/-- A `for` loop in `Except`: applies `body` to each element in turn. -/
def foldE (body : Int → Screen → Except PyErr Screen) :
    List Int → Screen → Except PyErr Screen
  | [], s => .ok s
  | i :: rest, s => body i s >>= foldE body rest

/-- screens.Screen.index: at the bottom margin, scroll the display up by
`pop(top)` / `insert(bottom, blank)` — the attribute matrix is not touched by
the source; otherwise `cursor_down()`. -/
def index (s : Screen) : Except PyErr Screen :=
  if s.y = s.margins.2 then
    withRows (fun d a => do
      let (_, d') ← pyPop d s.margins.1
      pure (pyInsert d' s.margins.2 (blankRow s.columns), a)) s
  else
    pure (cursor_down none s)

/-- screens.Screen.reverse_index. -/
def reverse_index (s : Screen) : Except PyErr Screen :=
  if s.y = s.margins.1 then
    withRows (fun d a => do
      let (_, d') ← pyPop d s.margins.2
      pure (pyInsert d' s.margins.1 (blankRow s.columns), a)) s
  else
    pure (cursor_up none s)

/-- screens.Screen.linefeed: an index, plus a carriage return when LNM is
set. -/
def linefeed (s : Screen) : Except PyErr Screen := do
  let s ← index s
  pure (if (20 : Int) ∈ s.mode then carriage_return s else s)

/-- One iteration of screens.Screen.insert_characters: insert a blank at the
cursor column, drop the last cell, and overwrite the cursor's attribute cell
with the default (the source does not shift the attribute row). -/
def icBody (s : Screen) : Except PyErr Screen :=
  withRows (fun d a => do
    let row ← pyGet d s.y
    let row ← popLast (pyInsert row s.x ' ')
    let arow ← pyGet a s.y
    let arow ← pySet arow s.x default_attributes
    let d' ← pySet d s.y row
    let a' ← pySet a s.y arow
    pure (d', a')) s

/-- screens.Screen.insert_characters.  The iteration count is
`min(self.columns - self.y, count)` exactly as in the source (note `self.y`,
not `self.x`). -/
def insert_characters (count : Option Int) (s : Screen) : Except PyErr Screen :=
  foldE (fun _ => icBody) (intRange 0 (min (s.columns - s.y) (countVal count))) s

/-- One iteration of screens.Screen.delete_characters: pop the cell at the
cursor column and append a blank, in both matrices. -/
def dcBody (s : Screen) : Except PyErr Screen :=
  withRows (fun d a => do
    let row ← pyGet d s.y
    let (_, row) ← pyPop row s.x
    let arow ← pyGet a s.y
    let (_, arow) ← pyPop arow s.x
    let d' ← pySet d s.y (row.concat ' ')
    let a' ← pySet a s.y (arow.concat default_attributes)
    pure (d', a')) s

/-- screens.Screen.delete_characters. -/
def delete_characters (count : Option Int) (s : Screen) : Except PyErr Screen :=
  foldE (fun _ => dcBody) (intRange 0 (min (s.columns - s.x) (countVal count))) s

/-- One iteration of screens.Screen.erase_characters at column `col`. -/
def ecBody (col : Int) (s : Screen) : Except PyErr Screen :=
  withRows (fun d a => do
    let row ← pyGet d s.y
    let row ← pySet row col ' '
    let arow ← pyGet a s.y
    let arow ← pySet arow col default_attributes
    let d' ← pySet d s.y row
    let a' ← pySet a s.y arow
    pure (d', a')) s

/-- screens.Screen.erase_characters. -/
def erase_characters (count : Option Int) (s : Screen) : Except PyErr Screen :=
  foldE ecBody (intRange s.x (min (s.x + countVal count) s.columns)) s

/-- screens.Screen.erase_in_line.  Faithful to the source: for `type_of == 1`
the new row is `u" " * (x + 1) + line[x+1:]`, which has `x + 1` cells when the
cursor is in the pending-wrap state `x == columns`. -/
def erase_in_line (t : Option Int) (s : Screen) : Except PyErr Screen :=
  let tv := t.getD 0
  withRows (fun d a => do
    let line ← pyGet d s.y
    let attrs ← pyGet a s.y
    if tv = 0 then
      let count := s.columns - s.x
      let d' ← pySet d s.y (pyTake line s.x ++ List.replicate count.toNat ' ')
      let a' ← pySet a s.y (pyTake attrs s.x ++ List.replicate count.toNat default_attributes)
      pure (d', a')
    else if tv = 1 then
      let count := s.x + 1
      let d' ← pySet d s.y (List.replicate count.toNat ' ' ++ pyDrop line count)
      let a' ← pySet a s.y (List.replicate count.toNat default_attributes ++ pyDrop attrs count)
      pure (d', a')
    else if tv = 2 then
      let d' ← pySet d s.y (List.replicate s.columns.toNat ' ')
      let a' ← pySet a s.y (List.replicate s.columns.toNat default_attributes)
      pure (d', a')
    else pure (d, a)) s

/-- One iteration of screens.Screen.erase_in_display on row `line`. -/
def eidBody (line : Int) (s : Screen) : Except PyErr Screen :=
  withRows (fun d a => do
    let d' ← pySet d line (List.replicate s.columns.toNat ' ')
    let a' ← pySet a line (List.replicate s.columns.toNat default_attributes)
    pure (d', a')) s

/-- screens.Screen.erase_in_display: the interval is selected by tuple
indexing, so a `type_of` outside `{0, 1, 2}` follows Python indexing rules
(negative wraps, too large raises). -/
def erase_in_display (t : Option Int) (s : Screen) : Except PyErr Screen := do
  let tv := t.getD 0
  let interval ← pyGet [intRange (s.y + 1) s.lines, intRange 0 s.y, intRange 0 s.lines] tv
  let s ← foldE eidBody interval s
  if tv = 0 ∨ tv = 1 then erase_in_line (some tv) s else pure s

/-- One iteration of screens.Screen.insert_lines: pop the bottom-margin row
of the display and insert a blank row at `line`. -/
def ilBody (line : Int) (s : Screen) : Except PyErr Screen :=
  withRows (fun d a => do
    let (_, d') ← pyPop d s.margins.2
    pure (pyInsert d' line (blankRow s.columns), a)) s

/-- screens.Screen.insert_lines (a no-op when the cursor is outside the
margins). -/
def insert_lines (count : Option Int) (s : Screen) : Except PyErr Screen :=
  if s.margins.1 ≤ s.y ∧ s.y ≤ s.margins.2 then do
    let s ← foldE ilBody (intRange s.y (min (s.margins.2 + 1) (s.y + countVal count))) s
    pure { s with x := 0 }
  else pure s

/-- One iteration of screens.Screen.delete_lines: pop the cursor row of the
display and insert a blank row at the bottom margin. -/
def dlBody (_i : Int) (s : Screen) : Except PyErr Screen :=
  withRows (fun d a => do
    let (_, d') ← pyPop d s.y
    pure (pyInsert d' s.margins.2 (blankRow s.columns), a)) s

/-- screens.Screen.delete_lines (a no-op when the cursor is outside the
margins). -/
def delete_lines (count : Option Int) (s : Screen) : Except PyErr Screen :=
  if s.margins.1 ≤ s.y ∧ s.y ≤ s.margins.2 then do
    let s ← foldE dlBody (intRange 0 (min (s.margins.2 - s.y + 1) (countVal count))) s
    pure { s with x := 0 }
  else pure s

/-- One cell write of screens.Screen.alignment_display. -/
def adCell (line col : Int) (s : Screen) : Except PyErr Screen :=
  withRows (fun d a => do
    let row ← pyGet d line
    let row ← pySet row col 'E'
    let d' ← pySet d line row
    pure (d', a)) s

/-- screens.Screen.alignment_display (fills the display with `E`; the
attribute matrix is not touched by the source). -/
def alignment_display (s : Screen) : Except PyErr Screen :=
  foldE (fun line s' => foldE (adCell line) (intRange 0 s'.columns) s')
    (intRange 0 s.lines) s

-- ## screens.py: SGR

/-- screens.Screen.text_attr. -/
def text_attr (a : Int) (s : Screen) : Except PyErr Screen :=
  match TEXT.lookup a with
  | none => .error .keyError
  | some name =>
    if name = "reset" then pure { s with cursor_attributes := default_attributes }
    else if name = "underline-off" then withStyle (remove_text_attr "underline") s
    else if name = "blink-off" then withStyle (remove_text_attr "blink") s
    else if name = "reverse-off" then withStyle (remove_text_attr "reverse") s
    else withStyle (add_text_attr name) s

/-- screens.Screen.color_attr (`fg = true` for "foreground"). -/
def color_attr (fg : Bool) (a : Int) (s : Screen) : Except PyErr Screen :=
  match (if fg then fgColors else bgColors).lookup a with
  | none => .error .keyError
  | some name =>
    withStyle (fun ca => do
      let a0 ← pyGet ca 0
      if fg then do
        let a2 ← pyGet ca 2
        pure [a0, .str name, a2]
      else do
        let a1 ← pyGet ca 1
        pure [a0, a1, .str name]) s

/-- screens.Screen.set_attr. -/
def set_attr (a : Int) (s : Screen) : Except PyErr Screen :=
  if (TEXT.lookup a).isSome then text_attr a s
  else if (fgColors.lookup a).isSome then color_attr true a s
  else if (bgColors.lookup a).isSome then color_attr false a s
  else pure s

/-- screens.Screen.select_graphic_rendition: empty parameter list means
`[0]`; each parameter is applied in turn. -/
def select_graphic_rendition (ps : List Int) (s : Screen) : Except PyErr Screen :=
  foldE set_attr (if ps.isEmpty then [0] else ps) s

-- ## screens.py: modes

/-- screens.Screen.set_mode (DECCOLM resizes to 132 columns, erases the
display and homes the cursor; DECOM homes the cursor). -/
def set_mode (ms : List Int) (s : Screen) : Except PyErr Screen := do
  let s := { s with mode := s.mode ∪ ms.toFinset }
  let s ← if (3 : Int) ∈ ms then do
      let s := resize none (some 132) s
      let s ← erase_in_display (some 2) s
      pure (cursor_position none none s)
    else pure s
  pure (if (6 : Int) ∈ ms then cursor_position none none s else s)

/-- screens.Screen.reset_mode (mirrors `set_mode`, resizing to 80 columns on
DECCOLM). -/
def reset_mode (ms : List Int) (s : Screen) : Except PyErr Screen := do
  let s := { s with mode := s.mode \ ms.toFinset }
  let s ← if (3 : Int) ∈ ms then do
      let s := resize none (some 80) s
      let s ← erase_in_display (some 2) s
      pure (cursor_position none none s)
    else pure s
  pure (if (6 : Int) ∈ ms then cursor_position none none s else s)

/-- The pending-wrap step of screens.Screen.draw.  Faithful to the source: in
the pending-wrap state the DECAWM branch performs a `linefeed()`, which resets
`x` only via LNM's carriage return; the cell write is attempted as is. -/
def drawWrap (s : Screen) : Except PyErr Screen :=
  if s.x = s.columns then
    (if (7 : Int) ∈ s.mode then linefeed s else pure { s with x := s.x - 1 })
  else pure s

/-- The insert-mode step of screens.Screen.draw. -/
def drawIRM (s : Screen) : Except PyErr Screen :=
  if (4 : Int) ∈ s.mode then insert_characters (some 1) s else pure s

/-- The cell write and cursor advance of screens.Screen.draw. -/
def drawWrite (c : Char) (s : Screen) : Except PyErr Screen := do
  let s ← withRows (fun d a => do
    let row ← pyGet d s.y
    let row ← pySet row s.x c
    let d' ← pySet d s.y row
    let arow ← pyGet a s.y
    let arow ← pySet arow s.x s.cursor_attributes
    let a' ← pySet a s.y arow
    pure (d', a')) s
  pure { s with x := s.x + 1 }

/-- screens.Screen.draw: pending-wrap handling, then the IRM shift, then the
cell write. -/
def draw (c : Char) (s : Screen) : Except PyErr Screen :=
  drawWrap s >>= drawIRM >>= drawWrite c

/-- screens.Screen.restore_cursor pops a savepoint if there is one (restoring
the position and re-enabling DECOM/DECAWM via `set_mode`), otherwise resets
DECOM and homes the cursor.  `restoreOrigin` is the
`if savepoint.origin: self.set_mode(mo.DECOM)` step. -/
def restoreOrigin (sp : Savepoint) (s : Screen) : Except PyErr Screen :=
  if sp.origin then set_mode [6] s else pure s

/-- The `if savepoint.wrap: self.set_mode(mo.DECAWM)` step of
screens.Screen.restore_cursor. -/
def restoreWrap (sp : Savepoint) (s : Screen) : Except PyErr Screen :=
  if sp.wrap then set_mode [7] s else pure s

/-- screens.Screen.restore_cursor body (see the doc comment above
`restoreOrigin`). -/
def restore_cursor (s : Screen) : Except PyErr Screen :=
  match s.savepoints.getLast? with
  | some sp =>
    restoreOrigin sp { s with savepoints := s.savepoints.dropLast,
                              x := sp.cursor.1, y := sp.cursor.2 }
      >>= restoreWrap sp
  | none => do
    let s ← reset_mode [6] s
    pure (cursor_position none none s)

-- ## The operation alphabet (the handlers screens.Screen.attach registers)

/-- One screen operation together with its arguments, covering every handler
registered by screens.Screen.attach plus `resize`. -/
inductive Op where
  | reset
  | draw (c : Char)
  | backspace
  | tab
  | linefeed
  | carriage_return
  | index
  | reverse_index
  | save_cursor
  | restore_cursor
  | cursor_up (n : Option Int)
  | cursor_down (n : Option Int)
  | cursor_forward (n : Option Int)
  | cursor_back (n : Option Int)
  | cursor_down1 (n : Option Int)
  | cursor_up1 (n : Option Int)
  | cursor_position (line col : Option Int)
  | cursor_to_column (c : Option Int)
  | cursor_to_line (l : Option Int)
  | erase_in_line (t : Option Int)
  | erase_in_display (t : Option Int)
  | insert_lines (n : Option Int)
  | delete_lines (n : Option Int)
  | insert_characters (n : Option Int)
  | delete_characters (n : Option Int)
  | erase_characters (n : Option Int)
  | select_graphic_rendition (ps : List Int)
  | bell
  | set_tab_stop
  | clear_tab_stop (t : Option Int)
  | set_margins (top bottom : Option Int)
  | set_mode (ms : List Int)
  | reset_mode (ms : List Int)
  | alignment_display
  | answer (args : List Int)
  | resize (lines cols : Option Int)

/-- Applies one operation to a screen. -/
def applyOp : Op → Screen → Except PyErr Screen
  | .reset, s => .ok (reset s)
  | .draw c, s => draw c s
  | .backspace, s => .ok (backspace s)
  | .tab, s => .ok (tab s)
  | .linefeed, s => linefeed s
  | .carriage_return, s => .ok (carriage_return s)
  | .index, s => index s
  | .reverse_index, s => reverse_index s
  | .save_cursor, s => .ok (save_cursor s)
  | .restore_cursor, s => restore_cursor s
  | .cursor_up n, s => .ok (cursor_up n s)
  | .cursor_down n, s => .ok (cursor_down n s)
  | .cursor_forward n, s => .ok (cursor_forward n s)
  | .cursor_back n, s => .ok (cursor_back n s)
  | .cursor_down1 n, s => .ok (cursor_down1 n s)
  | .cursor_up1 n, s => .ok (cursor_up1 n s)
  | .cursor_position l c, s => .ok (cursor_position l c s)
  | .cursor_to_column c, s => .ok (cursor_to_column c s)
  | .cursor_to_line l, s => .ok (cursor_to_line l s)
  | .erase_in_line t, s => erase_in_line t s
  | .erase_in_display t, s => erase_in_display t s
  | .insert_lines n, s => insert_lines n s
  | .delete_lines n, s => delete_lines n s
  | .insert_characters n, s => insert_characters n s
  | .delete_characters n, s => delete_characters n s
  | .erase_characters n, s => erase_characters n s
  | .select_graphic_rendition ps, s => select_graphic_rendition ps s
  | .bell, s => .ok (bell s)
  | .set_tab_stop, s => .ok (set_tab_stop s)
  | .clear_tab_stop t, s => .ok (clear_tab_stop t s)
  | .set_margins t b, s => .ok (set_margins t b s)
  | .set_mode ms, s => set_mode ms s
  | .reset_mode ms, s => reset_mode ms s
  | .alignment_display, s => alignment_display s
  | .answer args, s => .ok (answer args s)
  | .resize l c, s => .ok (resize l c s)

/-- Applies a sequence of operations; a raised exception aborts the rest, as
it would for a Python caller. -/
def runOps : List Op → Screen → Except PyErr Screen
  | [], s => .ok s
  | op :: rest, s => applyOp op s >>= runOps rest

/-- Operations that never touch the savepoint stack (everything except
save/restore-cursor; note that even `reset` leaves the stack alone). -/
def savepointFree : Op → Bool
  | .save_cursor => false
  | .restore_cursor => false
  | _ => true

/-- Extracts the screen from a successful run (the fallback is never used in
the concrete runs below). -/
def runOr (e : Except PyErr Screen) : Screen :=
  match e with
  | .ok s => s
  | .error _ => Screen.init 1 1

-- ## streams.py: the parser

/-- The parser state of streams.Stream: current state name, the `private`
flag (presence of the `"private"` key in `self.flags`), the collected
parameters and the digit buffer. -/
structure StreamSt where
  state : String
  privateFlag : Bool
  params : List Int
  current : String
deriving DecidableEq

/-- streams.Stream.reset — the initial parser state. -/
def streamReset : StreamSt :=
  { state := "stream", privateFlag := false, params := [], current := "" }

/-- streams.Stream.basic: C0 controls handled in the top-level state. -/
def basicTable : List (Char × String) :=
  [('\u0007', "bell"), ('\u0008', "backspace"), ('\u0009', "tab"),
   ('\u000A', "linefeed"), ('\u000B', "linefeed"), ('\u000C', "linefeed"),
   ('\u000D', "carriage-return"), ('\u000E', "shift-out"), ('\u000F', "shift-in")]

/-- streams.Stream.escape: non-CSI escape sequences. -/
def escTable : List (Char × String) :=
  [('c', "reset"), ('D', "index"), ('E', "linefeed"), ('H', "set-tab-stop"),
   ('M', "reverse-index"), ('7', "save-cursor"), ('8', "restore-cursor")]

/-- streams.Stream.sharp. -/
def sharpTable : List (Char × String) :=
  [('8', "alignment-display")]

/-- streams.Stream.csi: CSI finals (escape.HPA is the apostrophe). -/
def csiTable : List (Char × String) :=
  [('@', "insert-characters"), ('A', "cursor-up"), ('B', "cursor-down"),
   ('C', "cursor-forward"), ('D', "cursor-back"), ('E', "cursor-down1"),
   ('F', "cursor-up1"), ('G', "cursor-to-column"), ('H', "cursor-position"),
   ('J', "erase-in-display"), ('K', "erase-in-line"), ('L', "insert-lines"),
   ('M', "delete-lines"), ('P', "delete-characters"), ('X', "erase-characters"),
   ('a', "cursor-forward"), ('d', "cursor-to-line"), ('e', "cursor-down"),
   ('f', "cursor-position"), ('g', "clear-tab-stop"), ('h', "set-mode"),
   ('l', "reset-mode"), ('m', "select-graphic-rendition"), ('r', "set-margins"),
   (Char.ofNat 39, "cursor-to-column")]

/-- The behaviour of one attached listener when invoked: `none` returns
normally, `some e` raises an exception of class `e`.  Listener side effects on
external objects are outside the parser state and not modelled. -/
def Listeners : Type := String → List (Option PyErr)

/-- streams.Stream.dispatch over the listeners of one event: invokes each
callback in order, stopping at the first exception.  Returns how many
listeners were invoked and the exception, if any. -/
def dispatchL : List (Option PyErr) → Nat × Option PyErr
  | [] => (0, none)
  | none :: rest => let r := dispatchL rest; (r.1 + 1, r.2)
  | some e :: _ => (1, some e)

/-- Python 2 `unicode.isdigit` restricted to the characters this development
uses: the ASCII digits plus the Latin-1 superscripts, which carry the Unicode
digit property (category No) and therefore satisfy `isdigit` although `int()`
rejects them.  Other Unicode digit-property characters exist but none appears
in any theorem below. -/
def pyIsdigit (c : Char) : Bool :=
  c.isDigit || c = '²' || c = '³' || c = '¹'

/-- The numeric value of a string of ASCII digits. -/
def digitsVal (s : String) : Int :=
  (s.foldl (fun acc c => acc * 10 + (c.toNat - 48)) 0 : Nat)

/-- Python 2 `int(self.current or 0)`: the empty buffer falls back to the
integer `0`; a buffer of ASCII decimal digits converts; any other character
(e.g. a superscript digit) raises `UnicodeEncodeError`, a subclass of
`ValueError`. -/
def pyIntCurrent (current : String) : Except PyErr Int :=
  if current = "" then .ok 0
  else if current.toList.all Char.isDigit then .ok (digitsVal current)
  else .error .valueError

/-- The result of one state-handler run: the state as the handler left it
(also meaningful when an exception was raised part-way), the number of
listeners invoked, and the exception escaping the handler, if any. -/
def HRes : Type := StreamSt × Nat × Option PyErr

/-- streams.Stream._stream. -/
def hStream (L : Listeners) (c : Char) (st : StreamSt) : HRes :=
  match basicTable.lookup c with
  | some ev => let r := dispatchL (L ev); (st, r.1, r.2)
  | none =>
    if c = '\u001B' then ({ st with state := "escape" }, 0, none)
    else if c = '\u009B' then ({ st with state := "arguments" }, 0, none)
    else if c ≠ '\u0000' ∧ c ≠ '\u007F' then
      let r := dispatchL (L "draw"); (st, r.1, r.2)
    else (st, 0, none)

/-- streams.Stream._escape (the state is set to "stream" before the dispatch,
as in the source). -/
def hEscape (L : Listeners) (c : Char) (st : StreamSt) : HRes :=
  if c = '#' then ({ st with state := "sharp" }, 0, none)
  else if c = '[' then ({ st with state := "arguments" }, 0, none)
  else
    match escTable.lookup c with
    | some ev =>
      let r := dispatchL (L ev); ({ st with state := "stream" }, r.1, r.2)
    | none => ({ st with state := "stream" }, 0, none)

/-- streams.Stream._sharp (the return to "stream" happens after the dispatch,
so it is skipped when a listener raises). -/
def hSharp (L : Listeners) (c : Char) (st : StreamSt) : HRes :=
  match sharpTable.lookup c with
  | some ev =>
    let r := dispatchL (L ev)
    match r.2 with
    | some e => (st, r.1, some e)
    | none => ({ st with state := "stream" }, r.1, none)
  | none => ({ st with state := "stream" }, 0, none)

/-- streams.Stream._arguments.  Digits are recognised with `isdigit`, but the
collected buffer is later converted with `int(...)` — the mismatch is kept
faithfully.  State mutations that precede a raising dispatch are kept. -/
def hArguments (L : Listeners) (c : Char) (st : StreamSt) : HRes :=
  if c = '?' then ({ st with privateFlag := true }, 0, none)
  else if c = '\u0007' ∨ c = '\u0008' ∨ c = '\u0009' ∨ c = '\u000A' ∨ c = '\u000D' then
    (st, 0, none)
  else if c = '\u0018' ∨ c = '\u001A' then
    let r := dispatchL (L "draw")
    match r.2 with
    | some e => (st, r.1, some e)
    | none => ({ st with state := "stream" }, r.1, none)
  else if pyIsdigit c then
    ({ st with current := st.current.push c }, 0, none)
  else
    match pyIntCurrent st.current with
    | .error e => (st, 0, some e)
    | .ok v =>
      let st := { st with params := st.params.concat (min v 9999) }
      if c = ';' then ({ st with current := "" }, 0, none)
      else
        let r := match csiTable.lookup c with
          | some ev => dispatchL (L ev)
          | none => dispatchL (L "debug")
        match r.2 with
        | some e => (st, r.1, some e)
        | none => (streamReset, r.1, none)

/-- streams.Stream.consume without the surrounding try/except: selects the
handler by state name (an unknown state would make `dict.get` return `None`
and calling it raise `TypeError`). -/
def handlerRun (L : Listeners) (c : Char) (st : StreamSt) : HRes :=
  if st.state = "stream" then hStream L c st
  else if st.state = "escape" then hEscape L c st
  else if st.state = "arguments" then hArguments L c st
  else if st.state = "sharp" then hSharp L c st
  else (st, 0, some .typeError)

instance : DecidableEq HRes := by unfold HRes; infer_instance

/-- streams.Stream.consume: the handler call is wrapped in
`try: ... except TypeError: pass`, so a `TypeError` — whatever raised it — is
swallowed and any other exception class propagates to the caller. -/
def consume (L : Listeners) (c : Char) (st : StreamSt) : HRes :=
  let r := handlerRun L c st
  (r.1, r.2.1, if r.2.2 = some PyErr.typeError then none else r.2.2)

/-- streams.Stream.feed: consume each character; a propagating exception
aborts the loop. -/
def feed (L : Listeners) : List Char → StreamSt → Except PyErr StreamSt
  | [], st => .ok st
  | c :: rest, st =>
    let r := consume L c st
    match r.2.2 with
    | some e => .error e
    | none => feed L rest r.1

/-- A stream with no listeners attached. -/
def noListeners : Listeners := fun _ => []

-- ## Proof toolkit: the Except monad and savepoint preservation

theorem bind_ok {α β : Type} {x : Except PyErr α} {f : α → Except PyErr β} {b : β} :
    x >>= f = .ok b ↔ ∃ a, x = .ok a ∧ f a = .ok b := by
  cases x <;> simp [Bind.bind, Except.bind]

/-- An operation preserves the savepoint stack whenever it succeeds. -/
def SPres (f : Screen → Except PyErr Screen) : Prop :=
  ∀ ⦃s t : Screen⦄, f s = .ok t → t.savepoints = s.savepoints

theorem spres_of_fun {f : Screen → Screen}
    (hf : ∀ s, (f s).savepoints = s.savepoints) :
    SPres (fun s => Except.ok (f s)) := by
  intro s t h
  injection h with h
  rw [← h]
  exact hf s

theorem spres_bind {f g : Screen → Except PyErr Screen}
    (hf : SPres f) (hg : SPres g) : SPres (fun s => f s >>= g) := by
  intro s t h
  rw [bind_ok] at h
  obtain ⟨a, ha, hb⟩ := h
  rw [hg hb, hf ha]

theorem withRows_sp (f : List (List Char) → List (List Attrs) →
    Except PyErr (List (List Char) × List (List Attrs))) :
    SPres (withRows f) := by
  intro s t h
  unfold withRows at h
  rw [bind_ok] at h
  obtain ⟨⟨d, a⟩, _, h2⟩ := h
  injection h2 with h2
  rw [← h2]

theorem withStyle_sp (f : Attrs → Except PyErr Attrs) : SPres (withStyle f) := by
  intro s t h
  unfold withStyle at h
  rw [bind_ok] at h
  obtain ⟨ca, _, h2⟩ := h
  injection h2 with h2
  rw [← h2]

theorem foldE_sp (body : Int → Screen → Except PyErr Screen)
    (hb : ∀ i, SPres (body i)) : ∀ l, SPres (foldE body l) := by
  intro l
  induction l with
  | nil => intro s t h; injection h with h; rw [h]
  | cons i rest ih =>
    intro s t h
    exact spres_bind (hb i) ih h

theorem ensure_bounds_sp (b : Bool) (s : Screen) :
    (ensure_bounds b s).savepoints = s.savepoints := rfl

theorem ensure_bounds_mode (b : Bool) (s : Screen) :
    (ensure_bounds b s).mode = s.mode := rfl

theorem ensure_bounds_ca (b : Bool) (s : Screen) :
    (ensure_bounds b s).cursor_attributes = s.cursor_attributes := rfl

theorem cursor_position_sp (l c : Option Int) (s : Screen) :
    (cursor_position l c s).savepoints = s.savepoints := by
  unfold cursor_position
  dsimp only
  split_ifs <;> rfl

theorem cursor_position_mode (l c : Option Int) (s : Screen) :
    (cursor_position l c s).mode = s.mode := by
  unfold cursor_position
  dsimp only
  split_ifs <;> rfl

theorem cursor_position_ca (l c : Option Int) (s : Screen) :
    (cursor_position l c s).cursor_attributes = s.cursor_attributes := by
  unfold cursor_position
  dsimp only
  split_ifs <;> rfl

theorem resize_sp (l c : Option Int) (s : Screen) :
    (resize l c s).savepoints = s.savepoints := by
  unfold resize
  dsimp only
  split_ifs <;> rfl

theorem reset_sp (s : Screen) : (reset s).savepoints = s.savepoints := by
  unfold reset
  rw [cursor_position_sp, resize_sp]

theorem set_margins_sp (t b : Option Int) (s : Screen) :
    (set_margins t b s).savepoints = s.savepoints := by
  unfold set_margins
  cases t <;> cases b <;> simp only
  split_ifs <;> simp [cursor_position_sp]

theorem index_sp : SPres index := by
  intro s t h
  unfold index at h
  split at h
  · exact withRows_sp _ h
  · injection h with h
    rw [← h]
    rfl

theorem reverse_index_sp : SPres reverse_index := by
  intro s t h
  unfold reverse_index at h
  split at h
  · exact withRows_sp _ h
  · injection h with h
    rw [← h]
    rfl

theorem linefeed_sp : SPres linefeed := by
  have : SPres (fun s => index s >>= fun s =>
      pure (if (20 : Int) ∈ s.mode then carriage_return s else s)) := by
    refine spres_bind index_sp ?_
    intro s t h
    injection h with h
    rw [← h]
    split <;> rfl
  exact this

theorem icBody_sp : SPres icBody := by
  intro s t h
  exact withRows_sp _ h

theorem insert_characters_sp (n : Option Int) : SPres (insert_characters n) := by
  intro s t h
  unfold insert_characters at h
  exact foldE_sp _ (fun _ => icBody_sp) _ h

theorem dcBody_sp : SPres dcBody := by
  intro s t h
  exact withRows_sp _ h

theorem delete_characters_sp (n : Option Int) : SPres (delete_characters n) := by
  intro s t h
  unfold delete_characters at h
  exact foldE_sp _ (fun _ => dcBody_sp) _ h

theorem ecBody_sp (i : Int) : SPres (ecBody i) := by
  intro s t h
  exact withRows_sp _ h

theorem erase_characters_sp (n : Option Int) : SPres (erase_characters n) := by
  intro s t h
  unfold erase_characters at h
  exact foldE_sp _ ecBody_sp _ h

theorem erase_in_line_sp (ty : Option Int) : SPres (erase_in_line ty) := by
  intro s t h
  unfold erase_in_line at h
  dsimp only at h
  exact withRows_sp _ h

theorem eidBody_sp (i : Int) : SPres (eidBody i) := by
  intro s t h
  exact withRows_sp _ h

theorem erase_in_display_sp (ty : Option Int) : SPres (erase_in_display ty) := by
  intro s t h
  unfold erase_in_display at h
  rw [bind_ok] at h
  obtain ⟨interval, _, h⟩ := h
  rw [bind_ok] at h
  obtain ⟨s1, h1, h2⟩ := h
  have hs1 := foldE_sp _ eidBody_sp _ h1
  split at h2
  · rw [erase_in_line_sp _ h2, hs1]
  · injection h2 with h2
    rw [← h2, hs1]

theorem ilBody_sp (i : Int) : SPres (ilBody i) := by
  intro s t h
  exact withRows_sp _ h

theorem insert_lines_sp (n : Option Int) : SPres (insert_lines n) := by
  intro s t h
  unfold insert_lines at h
  split at h
  · rw [bind_ok] at h
    obtain ⟨s1, h1, h2⟩ := h
    injection h2 with h2
    rw [← h2]
    show s1.savepoints = s.savepoints
    exact foldE_sp _ ilBody_sp _ h1
  · injection h with h
    rw [h]

theorem dlBody_sp (i : Int) : SPres (dlBody i) := by
  intro s t h
  exact withRows_sp _ h

theorem delete_lines_sp (n : Option Int) : SPres (delete_lines n) := by
  intro s t h
  unfold delete_lines at h
  split at h
  · rw [bind_ok] at h
    obtain ⟨s1, h1, h2⟩ := h
    injection h2 with h2
    rw [← h2]
    show s1.savepoints = s.savepoints
    exact foldE_sp _ dlBody_sp _ h1
  · injection h with h
    rw [h]

theorem adCell_sp (l c : Int) : SPres (adCell l c) := by
  intro s t h
  exact withRows_sp _ h

theorem alignment_display_sp : SPres alignment_display := by
  intro s t h
  unfold alignment_display at h
  exact foldE_sp _ (fun l => fun s' t' h' => foldE_sp _ (adCell_sp l) _ h') _ h

theorem text_attr_sp (a : Int) : SPres (text_attr a) := by
  intro s t h
  unfold text_attr at h
  split at h
  · cases h
  · split_ifs at h
    · injection h with h
      rw [← h]
    · exact withStyle_sp _ h
    · exact withStyle_sp _ h
    · exact withStyle_sp _ h
    · exact withStyle_sp _ h

theorem color_attr_sp (fg : Bool) (a : Int) : SPres (color_attr fg a) := by
  intro s t h
  unfold color_attr at h
  split at h
  · cases h
  · exact withStyle_sp _ h

theorem set_attr_sp (a : Int) : SPres (set_attr a) := by
  intro s t h
  unfold set_attr at h
  split_ifs at h
  · exact text_attr_sp _ h
  · exact color_attr_sp _ _ h
  · exact color_attr_sp _ _ h
  · injection h with h
    rw [h]

theorem select_graphic_rendition_sp (ps : List Int) :
    SPres (select_graphic_rendition ps) := by
  intro s t h
  unfold select_graphic_rendition at h
  exact foldE_sp _ set_attr_sp _ h

theorem set_mode_sp (ms : List Int) : SPres (set_mode ms) := by
  intro s t h
  unfold set_mode at h
  dsimp only at h
  split at h
  · rw [bind_ok] at h
    obtain ⟨s1, h1, h⟩ := h
    rw [bind_ok] at h
    obtain ⟨s2, h2, h3⟩ := h
    injection h2 with h2
    injection h3 with h3
    rw [← h3]
    have e2 : s2.savepoints = s1.savepoints := by rw [← h2, cursor_position_sp]
    have e1 : s1.savepoints = s.savepoints := by
      rw [erase_in_display_sp _ h1, resize_sp]
    split <;> simp [cursor_position_sp, e2, e1]
  · rw [bind_ok] at h
    obtain ⟨s1, h1, h2⟩ := h
    injection h1 with h1
    injection h2 with h2
    rw [← h2, ← h1]
    split <;> simp [cursor_position_sp]

theorem reset_mode_sp (ms : List Int) : SPres (reset_mode ms) := by
  intro s t h
  unfold reset_mode at h
  dsimp only at h
  split at h
  · rw [bind_ok] at h
    obtain ⟨s1, h1, h⟩ := h
    rw [bind_ok] at h
    obtain ⟨s2, h2, h3⟩ := h
    injection h2 with h2
    injection h3 with h3
    rw [← h3]
    have e2 : s2.savepoints = s1.savepoints := by rw [← h2, cursor_position_sp]
    have e1 : s1.savepoints = s.savepoints := by
      rw [erase_in_display_sp _ h1, resize_sp]
    split <;> simp [cursor_position_sp, e2, e1]
  · rw [bind_ok] at h
    obtain ⟨s1, h1, h2⟩ := h
    injection h1 with h1
    injection h2 with h2
    rw [← h2, ← h1]
    split <;> simp [cursor_position_sp]

theorem drawWrap_sp : SPres drawWrap := by
  intro s t h
  unfold drawWrap at h
  split at h
  · split at h
    · exact linefeed_sp h
    · injection h with h; rw [← h]
  · injection h with h; rw [h]

theorem drawIRM_sp : SPres drawIRM := by
  intro s t h
  unfold drawIRM at h
  split at h
  · exact insert_characters_sp _ h
  · injection h with h; rw [h]

theorem drawWrite_sp (c : Char) : SPres (drawWrite c) := by
  intro s t h
  unfold drawWrite at h
  rw [bind_ok] at h
  obtain ⟨s1, h1, h2⟩ := h
  injection h2 with h2
  rw [← h2]
  show s1.savepoints = s.savepoints
  exact withRows_sp _ h1

theorem draw_sp (c : Char) : SPres (draw c) := by
  intro s t h
  unfold draw at h
  rw [bind_ok] at h
  obtain ⟨s1, h1, h⟩ := h
  rw [bind_ok] at h1
  obtain ⟨s2, h2, h3⟩ := h1
  rw [drawWrite_sp _ h, drawIRM_sp h3, drawWrap_sp h2]

theorem clear_tab_stop_sp (t : Option Int) (s : Screen) :
    (clear_tab_stop t s).savepoints = s.savepoints := by
  unfold clear_tab_stop
  dsimp only
  split_ifs <;> rfl

theorem answer_sp (args : List Int) (s : Screen) :
    (answer args s).savepoints = s.savepoints := by
  unfold answer
  split_ifs <;> rfl

theorem applyOp_sp (op : Op) (hop : savepointFree op = true) :
    SPres (applyOp op) := by
  cases op with
  | save_cursor => simp [savepointFree] at hop
  | restore_cursor => simp [savepointFree] at hop
  | draw c => exact draw_sp c
  | linefeed => exact linefeed_sp
  | index => exact index_sp
  | reverse_index => exact reverse_index_sp
  | erase_in_line t => exact erase_in_line_sp t
  | erase_in_display t => exact erase_in_display_sp t
  | insert_lines n => exact insert_lines_sp n
  | delete_lines n => exact delete_lines_sp n
  | insert_characters n => exact insert_characters_sp n
  | delete_characters n => exact delete_characters_sp n
  | erase_characters n => exact erase_characters_sp n
  | select_graphic_rendition ps => exact select_graphic_rendition_sp ps
  | set_mode ms => exact set_mode_sp ms
  | reset_mode ms => exact reset_mode_sp ms
  | alignment_display => exact alignment_display_sp
  | reset =>
    intro s t h
    injection h with h
    rw [← h, reset_sp]
  | backspace =>
    intro s t h
    injection h with h
    rw [← h]
    rfl
  | tab =>
    intro s t h
    injection h with h
    rw [← h]
    rfl
  | carriage_return =>
    intro s t h
    injection h with h
    rw [← h]
    rfl
  | cursor_up n =>
    intro s t h
    injection h with h
    rw [← h]
    rfl
  | cursor_down n =>
    intro s t h
    injection h with h
    rw [← h]
    rfl
  | cursor_forward n =>
    intro s t h
    injection h with h
    rw [← h]
    rfl
  | cursor_back n =>
    intro s t h
    injection h with h
    rw [← h]
    rfl
  | cursor_down1 n =>
    intro s t h
    injection h with h
    rw [← h]
    rfl
  | cursor_up1 n =>
    intro s t h
    injection h with h
    rw [← h]
    rfl
  | cursor_position l c =>
    intro s t h
    injection h with h
    rw [← h, cursor_position_sp]
  | cursor_to_column c =>
    intro s t h
    injection h with h
    rw [← h]
    rfl
  | cursor_to_line l =>
    intro s t h
    injection h with h
    rw [← h]
    rfl
  | bell =>
    intro s t h
    injection h with h
    rw [← h]
    rfl
  | set_tab_stop =>
    intro s t h
    injection h with h
    rw [← h]
    rfl
  | clear_tab_stop t =>
    intro s t h
    injection h with h
    rw [← h, clear_tab_stop_sp]
  | set_margins a b =>
    intro s t h
    injection h with h
    rw [← h, set_margins_sp]
  | answer args =>
    intro s t h
    injection h with h
    rw [← h, answer_sp]
  | resize l c =>
    intro s t h
    injection h with h
    rw [← h, resize_sp]

theorem runOps_sp (ops : List Op) (hops : ∀ op ∈ ops, savepointFree op = true) :
    SPres (runOps ops) := by
  induction ops with
  | nil =>
    intro s t h
    injection h with h
    rw [h]
  | cons op rest ih =>
    intro s t h
    have h' : applyOp op s >>= runOps rest = .ok t := h
    rw [bind_ok] at h'
    obtain ⟨a, ha, hb⟩ := h'
    rw [ih (fun o ho => hops o (List.mem_cons_of_mem op ho)) hb,
        applyOp_sp op (hops op (List.mem_cons_self op rest)) ha]

-- ## Evaluation lemmas for set_mode on single non-DECCOLM modes

theorem set_mode6 (s : Screen) :
    set_mode [6] s =
      .ok (cursor_position none none { s with mode := s.mode ∪ ([6] : List Int).toFinset }) := by
  unfold set_mode
  dsimp only
  norm_num
  rfl

theorem set_mode7 (s : Screen) :
    set_mode [7] s = .ok { s with mode := s.mode ∪ ([7] : List Int).toFinset } := by
  unfold set_mode
  dsimp only
  norm_num
  rfl

theorem restoreOrigin_ok (sp : Savepoint) (s t : Screen)
    (h : restoreOrigin sp s = .ok t) :
    t = (if sp.origin then
           cursor_position none none { s with mode := s.mode ∪ ([6] : List Int).toFinset }
         else s) := by
  unfold restoreOrigin at h
  split at h
  · rw [set_mode6] at h
    injection h with h
    simp_all
  · injection h with h
    simp_all

theorem restoreWrap_ok (sp : Savepoint) (s t : Screen)
    (h : restoreWrap sp s = .ok t) :
    t = (if sp.wrap then { s with mode := s.mode ∪ ([7] : List Int).toFinset } else s) := by
  unfold restoreWrap at h
  split at h
  · rw [set_mode7] at h
    injection h with h
    simp_all
  · injection h with h
    simp_all

-- ## Claim C5

/-- Claim C5 (amended): `save_cursor` records only the cursor position and the
DECOM/DECAWM bits, not the SGR style.  After intervening operations that never
touch the savepoint stack, a successful `restore_cursor` re-enables DECOM and
DECAWM if they were set at the save; if DECOM was not set at the save it
restores the saved cursor position (if DECOM was set, re-enabling it homes the
cursor instead); and it leaves the cursor's SGR style at whatever the
intervening operations produced. -/
theorem C5_save_restore (s : Screen) (ops : List Op)
    (hops : ∀ op ∈ ops, savepointFree op = true)
    (t : Screen) (hrun : runOps ops (save_cursor s) = .ok t)
    (u : Screen) (hres : restore_cursor t = .ok u) :
    ((6 : Int) ∈ s.mode → (6 : Int) ∈ u.mode) ∧
    ((7 : Int) ∈ s.mode → (7 : Int) ∈ u.mode) ∧
    ((6 : Int) ∉ s.mode → u.x = s.x ∧ u.y = s.y) ∧
    u.cursor_attributes = t.cursor_attributes := by
  have hsp : t.savepoints = (save_cursor s).savepoints := runOps_sp ops hops hrun
  have hsp' : t.savepoints = s.savepoints.concat
      ⟨(s.x, s.y), decide ((6 : Int) ∈ s.mode), decide ((7 : Int) ∈ s.mode)⟩ := by
    rw [hsp]; rfl
  unfold restore_cursor at hres
  rw [hsp', List.concat_eq_append, List.getLast?_concat, List.dropLast_concat] at hres
  dsimp only at hres
  rw [bind_ok] at hres
  obtain ⟨m, hm, hw⟩ := hres
  have hmeq := restoreOrigin_ok _ _ _ hm
  have hueq := restoreWrap_ok _ _ _ hw
  subst hueq
  subst hmeq
  dsimp only at *
  by_cases h6 : (6 : Int) ∈ s.mode <;> by_cases h7 : (7 : Int) ∈ s.mode <;>
    simp [h6, h7, cursor_position_mode, cursor_position_ca]

-- ## Claim C6

/-- The state of a freshly reset screen of the given dimensions, carrying the
given tab stops and savepoint stack (which `reset` does not touch). -/
def mkClean (columns lines : Int) (ts : Finset Int) (sps : List Savepoint) : Screen :=
  { lines := lines, columns := columns,
    display := List.replicate lines.toNat (List.replicate columns.toNat ' '),
    attributes := List.replicate lines.toNat (List.replicate columns.toNat default_attributes),
    buffer := [], mode := {7, 25, 20}, margins := (0, lines - 1),
    cursor_attributes := default_attributes, x := 0, y := 0,
    tabstops := ts, savepoints := sps }

theorem reset_closed (s : Screen) (hl : 1 ≤ s.lines) (hc : 1 ≤ s.columns) :
    reset s = mkClean s.columns s.lines s.tabstops s.savepoints := by
  have hl0 : s.lines ≠ 0 := by omega
  have hc0 : s.columns ≠ 0 := by omega
  have h6 : ¬ ((6 : Int) ∈ ({7, 25, 20} : Finset Int)) := by decide
  unfold reset resize cursor_position ensure_bounds mkClean
  simp [hl0, hc0, h6, show (0 : Int) < s.lines by omega,
    show (0 : Int) < s.columns by omega, blankRow, countVal]
  omega

theorem init_closed (columns lines : Int) (hl : 1 ≤ lines) (hc : 1 ≤ columns) :
    Screen.init columns lines = mkClean columns lines (defaultTabstops columns) [] := by
  unfold Screen.init
  rw [reset_closed _ hl hc]

/-- Claim C6 (amended): after any operations, `reset()` restores the display,
attributes, reply buffer, modes, margins, cursor style and cursor position of
a freshly constructed screen of the same dimensions — but it preserves the
current tab stops and the savepoint stack instead of restoring the defaults. -/
theorem C6_reset_is_fresh (s : Screen) (hl : 1 ≤ s.lines) (hc : 1 ≤ s.columns) :
    reset s = { Screen.init s.columns s.lines with
                tabstops := s.tabstops, savepoints := s.savepoints } := by
  rw [reset_closed s hl hc, init_closed _ _ hl hc]
  rfl

-- ## Claim C8 helpers

theorem lookup_none {α β : Type} [DecidableEq α] (l : List (α × β)) (c : α)
    (h : ∀ p ∈ l, p.1 ≠ c) : l.lookup c = none := by
  induction l with
  | nil => rfl
  | cons p rest ih =>
    have h1 : (c == p.1) = false :=
      beq_eq_false_iff_ne.mpr (fun hcp => h p (List.mem_cons_self p rest) hcp.symm)
    simp [List.lookup, h1, ih (fun q hq => h q (List.mem_cons_of_mem p hq))]

-- ## Claim theorems: code_bug evaluations and remaining claims

/-- Claim C1: refuting evaluation.  On a 2-column screen, drawing two
characters leaves the cursor in the pending-wrap state `x == columns`; then
`erase_in_line(1)` rewrites row 0 to `x + 1 = 3` cells, so the grid no longer
has `columns` cells in every row. -/
theorem C1_pending_wrap_breaks_grid_shape :
    ((runOps [Op.draw 'a', Op.draw 'b', Op.erase_in_line (some 1)]
        (Screen.init 2 2)).toOption.map
      (fun t => (t.display.map List.length, t.lines, t.columns))) =
      some ([3, 2], 2, 2) := by
  decide

/-- Claim C2: refuting evaluation.  With LNM reset and the cursor on the
bottom margin, drawing past the last column takes the DECAWM branch of `draw`,
whose `linefeed` scrolls without resetting `x`; the subsequent cell write
`display[y][columns]` is out of bounds and raises `IndexError`. -/
theorem C2_draw_pending_wrap_raises :
    runOps [Op.reset_mode [20], Op.cursor_position (some 3) none, Op.draw 'a',
            Op.draw 'b', Op.draw 'c', Op.draw 'd'] (Screen.init 3 3) =
      .error .indexError := by
  decide

/-- Claim C3: refuting evaluation.  Feeding `ESC [ ² m` (with U+00B2
SUPERSCRIPT TWO) makes `_arguments` buffer the superscript because
`isdigit` accepts it, and the final byte then calls `int(u"²")`, which raises
`UnicodeEncodeError` (a `ValueError`); `consume` catches only `TypeError`, so
the exception escapes to the caller. -/
theorem C3_superscript_digit_raises :
    feed noListeners ['\u001B', '[', '²', 'm'] streamReset =
      .error .valueError := by
  decide

/-- Claim C4: refuting evaluation.  A bold cell is drawn at row 1 of a 2×2
screen; `index` at the bottom margin scrolls the display (the drawn row moves
to row 0) but leaves the attribute matrix untouched: the bold attribute stays
at row 1 and no default attribute row is appended. -/
theorem C4_index_leaves_attributes :
    ((runOps [Op.select_graphic_rendition [1], Op.cursor_position (some 2) (some 1),
        Op.draw 'a', Op.index] (Screen.init 2 2)).toOption.map
      (fun t => (t.display, t.attributes))) =
      some ([['a', ' '], [' ', ' ']],
            [[default_attributes, default_attributes],
             [[.flags {"bold"}, .str "default", .str "default"], default_attributes]]) := by
  decide

/-- Claim C7: refuting evaluation.  First scenario: a bold row `abc`;
`insert_characters(2)` at the home position shifts the display data to
`"  a"` but only overwrites the attribute cell at the cursor, leaving
`[default, bold, bold]` instead of the shifted `[default, default, bold]`.
Second scenario: with the cursor at `(0, 2)` of a 3-column screen the shift
count is `min(columns - y, 2) = 1` (the source uses `y` instead of `x`), so
`abc` becomes `" ab"` instead of `"  a"`. -/
theorem C7_insert_characters_bug :
    ((runOps [Op.select_graphic_rendition [1], Op.draw 'a', Op.draw 'b',
        Op.draw 'c', Op.cursor_position none none, Op.insert_characters (some 2)]
        (Screen.init 3 3)).toOption.map
      (fun t => (t.display.head?, t.attributes.head?))) =
      some (some [' ', ' ', 'a'],
            some [default_attributes,
                  [.flags {"bold"}, .str "default", .str "default"],
                  [.flags {"bold"}, .str "default", .str "default"]]) ∧
    ((runOps [Op.cursor_to_line (some 3), Op.draw 'a', Op.draw 'b', Op.draw 'c',
        Op.carriage_return, Op.insert_characters (some 2)]
        (Screen.init 3 3)).toOption.map (fun t => t.display.getLast?)) =
      some (some [' ', 'a', 'b']) := by
  constructor
  · decide
  · decide

/-- Claim C5 counterexample: with margins 3..6, DECOM set, the cursor saved at
`(2, 3)` with the default style, an SGR bold in between and then
`restore_cursor`: the cursor ends at `(0, 2)` (homed by re-enabling DECOM, not
the saved `(2, 3)`) and the style stays bold instead of the saved default. -/
theorem C5_style_not_restored :
    (runOr (runOps [Op.set_margins (some 3) (some 6), Op.set_mode [6],
        Op.cursor_position (some 2) (some 3), Op.save_cursor]
        (Screen.init 10 10))).x = 2 ∧
    (runOr (runOps [Op.set_margins (some 3) (some 6), Op.set_mode [6],
        Op.cursor_position (some 2) (some 3), Op.save_cursor]
        (Screen.init 10 10))).y = 3 ∧
    (runOr (runOps [Op.set_margins (some 3) (some 6), Op.set_mode [6],
        Op.cursor_position (some 2) (some 3), Op.save_cursor]
        (Screen.init 10 10))).cursor_attributes = default_attributes ∧
    (runOr (runOps [Op.set_margins (some 3) (some 6), Op.set_mode [6],
        Op.cursor_position (some 2) (some 3), Op.save_cursor,
        Op.select_graphic_rendition [1], Op.restore_cursor]
        (Screen.init 10 10))).x = 0 ∧
    (runOr (runOps [Op.set_margins (some 3) (some 6), Op.set_mode [6],
        Op.cursor_position (some 2) (some 3), Op.save_cursor,
        Op.select_graphic_rendition [1], Op.restore_cursor]
        (Screen.init 10 10))).y = 2 ∧
    (runOr (runOps [Op.set_margins (some 3) (some 6), Op.set_mode [6],
        Op.cursor_position (some 2) (some 3), Op.save_cursor,
        Op.select_graphic_rendition [1], Op.restore_cursor]
        (Screen.init 10 10))).cursor_attributes =
      [.flags {"bold"}, .str "default", .str "default"] := by
  refine ⟨?_, ?_, ?_, ?_, ?_, ?_⟩ <;> decide

/-- Claim C5 witness: the amended theorem applied to a 4×4 screen with an SGR
and a cursor move between save and restore. -/
theorem C5_save_restore_witness :
    ((6 : Int) ∈ (Screen.init 4 4).mode →
      (6 : Int) ∈ (runOr (restore_cursor (runOr (runOps
        [Op.select_graphic_rendition [1], Op.cursor_forward (some 2)]
        (save_cursor (Screen.init 4 4)))))).mode) ∧
    ((7 : Int) ∈ (Screen.init 4 4).mode →
      (7 : Int) ∈ (runOr (restore_cursor (runOr (runOps
        [Op.select_graphic_rendition [1], Op.cursor_forward (some 2)]
        (save_cursor (Screen.init 4 4)))))).mode) ∧
    ((6 : Int) ∉ (Screen.init 4 4).mode →
      (runOr (restore_cursor (runOr (runOps
        [Op.select_graphic_rendition [1], Op.cursor_forward (some 2)]
        (save_cursor (Screen.init 4 4)))))).x = (Screen.init 4 4).x ∧
      (runOr (restore_cursor (runOr (runOps
        [Op.select_graphic_rendition [1], Op.cursor_forward (some 2)]
        (save_cursor (Screen.init 4 4)))))).y = (Screen.init 4 4).y) ∧
    (runOr (restore_cursor (runOr (runOps
        [Op.select_graphic_rendition [1], Op.cursor_forward (some 2)]
        (save_cursor (Screen.init 4 4)))))).cursor_attributes =
      (runOr (runOps [Op.select_graphic_rendition [1], Op.cursor_forward (some 2)]
        (save_cursor (Screen.init 4 4)))).cursor_attributes :=
  C5_save_restore (Screen.init 4 4)
    [Op.select_graphic_rendition [1], Op.cursor_forward (some 2)]
    (by decide) _ (by decide) _ (by decide)

/-- Claim C6 counterexample: add a tab stop at column 0 and reset; the
resulting screen differs from a freshly constructed 10×10 screen because the
tab stops `{0, 7}` survive the reset. -/
theorem C6_reset_keeps_tabstops :
    reset (set_tab_stop (Screen.init 10 10)) ≠ Screen.init 10 10 ∧
    (reset (set_tab_stop (Screen.init 10 10))).tabstops = ({0, 7} : Finset Int) ∧
    (Screen.init 10 10).tabstops = ({7} : Finset Int) := by
  refine ⟨?_, ?_, ?_⟩ <;> decide

/-- Claim C6 witness: the amended theorem applied after `set_tab_stop`. -/
theorem C6_reset_is_fresh_witness :
    reset (set_tab_stop (Screen.init 10 10)) =
      { Screen.init (set_tab_stop (Screen.init 10 10)).columns
          (set_tab_stop (Screen.init 10 10)).lines with
        tabstops := (set_tab_stop (Screen.init 10 10)).tabstops,
        savepoints := (set_tab_stop (Screen.init 10 10)).savepoints } :=
  C6_reset_is_fresh (set_tab_stop (Screen.init 10 10)) (by decide) (by decide)

-- ## Claim C8

/-- Claim C8 (amended): for a well-formed style triple, SGR parameters
1, 4, 5, 7 add the flags bold, underline, blink, reverse; 24, 25, 27 remove
the corresponding flag from the flag set, though the resulting attribute tuple
is flattened to `flags ++ (fg, bg)` by `remove_text_attr`; and every code
outside the TEXT and COLORS tables — in particular 3, 9, 22, 23 and 29 —
leaves the style unchanged. -/
theorem C8_sgr (s : Screen) (fs : Finset String) (f b : String)
    (hs : s.cursor_attributes = [.flags fs, .str f, .str b])
    (c : Int) (h1 : ∀ p ∈ TEXT, p.1 ≠ c) (h2 : ∀ p ∈ fgColors, p.1 ≠ c)
    (h3 : ∀ p ∈ bgColors, p.1 ≠ c) :
    select_graphic_rendition [1] s =
      .ok { s with cursor_attributes := [.flags (insert "bold" fs), .str f, .str b] } ∧
    select_graphic_rendition [4] s =
      .ok { s with cursor_attributes := [.flags (insert "underline" fs), .str f, .str b] } ∧
    select_graphic_rendition [5] s =
      .ok { s with cursor_attributes := [.flags (insert "blink" fs), .str f, .str b] } ∧
    select_graphic_rendition [7] s =
      .ok { s with cursor_attributes := [.flags (insert "reverse" fs), .str f, .str b] } ∧
    select_graphic_rendition [24] s =
      .ok { s with cursor_attributes :=
        (sortFlags (fs.erase "underline")).map AttrVal.str ++ [.str f, .str b] } ∧
    select_graphic_rendition [25] s =
      .ok { s with cursor_attributes :=
        (sortFlags (fs.erase "blink")).map AttrVal.str ++ [.str f, .str b] } ∧
    select_graphic_rendition [27] s =
      .ok { s with cursor_attributes :=
        (sortFlags (fs.erase "reverse")).map AttrVal.str ++ [.str f, .str b] } ∧
    select_graphic_rendition [c] s = .ok s := by
  refine ⟨?_, ?_, ?_, ?_, ?_, ?_, ?_, ?_⟩
  · simp [select_graphic_rendition, foldE, set_attr, text_attr, withStyle, add_text_attr,
      hs, pyGet, pyIdx, setOfAttr, TEXT, List.lookup, Bind.bind, Except.bind, pure, Except.pure]
  · simp [select_graphic_rendition, foldE, set_attr, text_attr, withStyle, add_text_attr,
      hs, pyGet, pyIdx, setOfAttr, TEXT, List.lookup, Bind.bind, Except.bind, pure, Except.pure]
  · simp [select_graphic_rendition, foldE, set_attr, text_attr, withStyle, add_text_attr,
      hs, pyGet, pyIdx, setOfAttr, TEXT, List.lookup, Bind.bind, Except.bind, pure, Except.pure]
  · simp [select_graphic_rendition, foldE, set_attr, text_attr, withStyle, add_text_attr,
      hs, pyGet, pyIdx, setOfAttr, TEXT, List.lookup, Bind.bind, Except.bind, pure, Except.pure]
  · simp [select_graphic_rendition, foldE, set_attr, text_attr, withStyle, remove_text_attr,
      hs, pyGet, pyIdx, setOfAttr, TEXT, List.lookup, Bind.bind, Except.bind, pure, Except.pure]
  · simp [select_graphic_rendition, foldE, set_attr, text_attr, withStyle, remove_text_attr,
      hs, pyGet, pyIdx, setOfAttr, TEXT, List.lookup, Bind.bind, Except.bind, pure, Except.pure]
  · simp [select_graphic_rendition, foldE, set_attr, text_attr, withStyle, remove_text_attr,
      hs, pyGet, pyIdx, setOfAttr, TEXT, List.lookup, Bind.bind, Except.bind, pure, Except.pure]
  · simp [select_graphic_rendition, foldE, set_attr,
      lookup_none _ _ h1, lookup_none _ _ h2, lookup_none _ _ h3,
      Bind.bind, Except.bind, pure, Except.pure]

/-- Claim C8 counterexample: SGR parameter 9 is not in the TEXT table, so
`select_graphic_rendition(9)` leaves the style completely unchanged — no
strikethrough flag (and no flag at all) is added. -/
theorem C8_strikethrough_ignored :
    select_graphic_rendition [9] (Screen.init 2 2) = .ok (Screen.init 2 2) ∧
    (Screen.init 2 2).cursor_attributes = default_attributes := by
  constructor
  · decide
  · decide

/-- Claim C8 witness: the amended theorem applied to a fresh 2×2 screen with
the unknown code 9. -/
theorem C8_sgr_witness :
    select_graphic_rendition [1] (Screen.init 2 2) =
      .ok { Screen.init 2 2 with cursor_attributes :=
        [.flags (insert "bold" ∅), .str "default", .str "default"] } ∧
    select_graphic_rendition [4] (Screen.init 2 2) =
      .ok { Screen.init 2 2 with cursor_attributes :=
        [.flags (insert "underline" ∅), .str "default", .str "default"] } ∧
    select_graphic_rendition [5] (Screen.init 2 2) =
      .ok { Screen.init 2 2 with cursor_attributes :=
        [.flags (insert "blink" ∅), .str "default", .str "default"] } ∧
    select_graphic_rendition [7] (Screen.init 2 2) =
      .ok { Screen.init 2 2 with cursor_attributes :=
        [.flags (insert "reverse" ∅), .str "default", .str "default"] } ∧
    select_graphic_rendition [24] (Screen.init 2 2) =
      .ok { Screen.init 2 2 with cursor_attributes :=
        (sortFlags ((∅ : Finset String).erase "underline")).map AttrVal.str ++
          [.str "default", .str "default"] } ∧
    select_graphic_rendition [25] (Screen.init 2 2) =
      .ok { Screen.init 2 2 with cursor_attributes :=
        (sortFlags ((∅ : Finset String).erase "blink")).map AttrVal.str ++
          [.str "default", .str "default"] } ∧
    select_graphic_rendition [27] (Screen.init 2 2) =
      .ok { Screen.init 2 2 with cursor_attributes :=
        (sortFlags ((∅ : Finset String).erase "reverse")).map AttrVal.str ++
          [.str "default", .str "default"] } ∧
    select_graphic_rendition [9] (Screen.init 2 2) = .ok (Screen.init 2 2) :=
  C8_sgr (Screen.init 2 2) ∅ "default" "default" (by decide) 9
    (by decide) (by decide) (by decide)

-- ## Claim C9

/-- Claim C9 (amended): when `answer` is invoked with exactly one argument it
appends the primary DA reply, so the reply buffer afterwards ends with
`CSI ?62;1;6c`; any other arity (in particular zero arguments) leaves the
buffer untouched. -/
theorem C9_answer_da (s : Screen) (args : List Int) (h : args.length = 1) :
    (answer args s).buffer.getLast? = some "\u009B?62;1;6c" := by
  unfold answer
  rw [if_pos h, List.concat_eq_append, List.getLast?_concat]

/-- Claim C9 counterexample: `answer()` with no arguments fails the
`len(args) == 1` guard, so on a fresh screen the reply buffer stays empty and
does not end with the DA reply. -/
theorem C9_answer_no_args :
    (answer [] (Screen.init 2 2)).buffer = [] ∧
    (answer [] (Screen.init 2 2)).buffer.getLast? ≠ some "\u009B?62;1;6c" := by
  constructor
  · decide
  · decide

/-- Claim C9 witness: the amended theorem applied to a fresh screen with the
single argument 0. -/
theorem C9_answer_da_witness :
    (answer [0] (Screen.init 2 2)).buffer.getLast? = some "\u009B?62;1;6c" :=
  C9_answer_da (Screen.init 2 2) [0] rfl

-- ## Claim C10

theorem dispatchL_spec (pre : List (Option PyErr)) (hpre : ∀ x ∈ pre, x = none)
    (err : PyErr) (post : List (Option PyErr)) :
    dispatchL (pre ++ some err :: post) = (pre.length + 1, some err) := by
  induction pre with
  | nil => rfl
  | cons a rest ih =>
    have ha : a = none := hpre a (List.mem_cons_self a rest)
    subst ha
    have ih' := ih (fun x hx => hpre x (List.mem_cons_of_mem none hx))
    simp [dispatchL, ih']

/-- Claim C10: when a listener raises during an event dispatch in the
top-level state, `consume` invokes exactly the listeners up to and including
the raiser (the rest are skipped), swallows the exception when its class is
`TypeError` — returning normally with the parser state as the handler left
it — and propagates any other exception class to the caller. -/
theorem C10_dispatch_typeerror (L : Listeners) (st : StreamSt)
    (hst : st.state = "stream") (c : Char) (ev : String)
    (hc : basicTable.lookup c = some ev)
    (pre post : List (Option PyErr)) (err : PyErr)
    (hL : L ev = pre ++ some err :: post) (hpre : ∀ x ∈ pre, x = none) :
    consume L c st =
      (st, pre.length + 1, if err = PyErr.typeError then none else some err) := by
  unfold consume handlerRun
  rw [if_pos hst]
  unfold hStream
  rw [hc]
  dsimp only
  rw [hL, dispatchL_spec pre hpre err post]
  by_cases he : err = PyErr.typeError <;> simp [he]

/-- Claim C10 witness: a bell listener raising `TypeError` is swallowed (the
second listener is skipped and `consume` returns normally); a bell listener
raising `ValueError` propagates. -/
theorem C10_dispatch_typeerror_witness :
    consume (fun e => if e = "bell" then [none, some PyErr.typeError, none] else [])
        '\u0007' streamReset = (streamReset, 2, none) ∧
    consume (fun e => if e = "bell" then [some PyErr.valueError, none] else [])
        '\u0007' streamReset = (streamReset, 1, some PyErr.valueError) :=
  ⟨C10_dispatch_typeerror _ _ rfl '\u0007' "bell" (by decide)
      [none] [none] PyErr.typeError (by decide) (by decide),
   C10_dispatch_typeerror _ _ rfl '\u0007' "bell" (by decide)
      [] [none] PyErr.valueError (by decide) (by decide)⟩
